import Mathlib

/-!
Verification of the annotation service of the PDF-Annotation-App server
(`server/index.js`).  The server stores annotations in a MongoDB
collection; here the collection is a `List Annotation`, MongoDB's
`findOne {_id}` is `List.find?` on the id, `updateOne` / `deleteOne`
(which touch the first matching document) are explicit first-match
recursions, and `insertOne` appends.  JavaScript truthiness of the
`x || y` defaulting idiom is modelled exactly: an absent / null field is
`none`, a supplied string `""` is falsy, a supplied array — even the
empty array — is truthy.  Timestamps (`new Date()`) are `Nat` parameters.
-/

/-- An annotation document, as built by `POST /api/annotations`:
`{documentId, createdBy, type, content, position, visibleTo, createdAt,
updatedAt}` plus the Mongo `_id`.  The `position` payload is opaque to the
server, so it is kept as an uninterpreted string. -/
structure Annotation where
  id : Nat
  documentId : Nat
  createdBy : String
  type : String
  content : String
  position : String
  visibleTo : List String
  createdAt : Nat
  updatedAt : Nat
deriving Repr, DecidableEq

/-- The error outcomes the annotation routes produce: HTTP 404 and 403. -/
inductive ApiError where
  | NotFound
  | PermissionDenied
deriving Repr, DecidableEq

/-- `function checkPermission(userRole, requiredRoles) { return
requiredRoles.includes(userRole); }` -/
def checkPermission (userRole : String) (requiredRoles : List String) : Bool :=
  requiredRoles.contains userRole

/-- JavaScript `v || d` where `v` is an optional array field of the JSON
body: `undefined`/`null` are falsy, but any array — including `[]` — is
truthy and is kept as supplied. -/
def jsOrList (v : Option (List String)) (d : List String) : List String :=
  match v with
  | none => d
  | some l => l

/-- JavaScript `v || d` where `v` is an optional string field of the JSON
body: `undefined`/`null` and the empty string are falsy. -/
def jsOrStr (v : Option String) (d : String) : String :=
  match v with
  | none => d
  | some s => if s = "" then d else s

/-- Mongo `findOne({ _id: annotationId })` on the collection. -/
def findOneById (store : List Annotation) (annotationId : Nat) : Option Annotation :=
  store.find? (fun a => a.id == annotationId)

/-- Mongo `updateOne({ _id: annotationId }, { $set: updated })`: replaces
the first document with the given id. -/
def updateOneById (store : List Annotation) (annotationId : Nat)
    (updated : Annotation) : List Annotation :=
  match store with
  | [] => []
  | a :: rest =>
    if a.id == annotationId then updated :: rest
    else a :: updateOneById rest annotationId updated

/-- Mongo `deleteOne({ _id: annotationId })`: removes the first document
with the given id. -/
def deleteOneById (store : List Annotation) (annotationId : Nat) : List Annotation :=
  match store with
  | [] => []
  | a :: rest =>
    if a.id == annotationId then rest
    else a :: deleteOneById rest annotationId

/-- `POST /api/annotations`.  Returns the collection after the call
together with the outcome.  The role gate is
`checkPermission(userRole, ["admin", "default"])`; on success the inserted
annotation defaults `visibleTo` with `visibleTo || ["A1", "D1", "D2"]` and
stamps `createdAt = updatedAt = now`; `newId` is the Mongo-generated
`insertedId`. -/
def createAnn (userId userRole : String) (documentId : Nat)
    (type content position : String) (visibleTo : Option (List String))
    (now newId : Nat) (store : List Annotation) :
    List Annotation × Except ApiError Annotation :=
  if !checkPermission userRole ["admin", "default"] then
    (store, .error .PermissionDenied)
  else
    let ann : Annotation :=
      { id := newId
        documentId := documentId
        createdBy := userId
        type := type
        content := content
        position := position
        visibleTo := jsOrList visibleTo ["A1", "D1", "D2"]
        createdAt := now
        updatedAt := now }
    (store ++ [ann], .ok ann)

/-- The `$or` part of the `GET /api/annotations/:documentId` query: for a
readonly caller only `{ visibleTo: userId }` (array containment); for any
other caller `{ visibleTo: userId }` OR `{ createdBy: userId }` OR
`{ visibleTo: { $in: ["A1", "D1", "D2", "R1"] } }`. -/
def annotationVisibleInList (userId userRole : String) (a : Annotation) : Bool :=
  if userRole == "readonly" then
    a.visibleTo.contains userId
  else
    a.visibleTo.contains userId || a.createdBy == userId ||
      a.visibleTo.any (fun v => ["A1", "D1", "D2", "R1"].contains v)

/-- `GET /api/annotations/:documentId`: find the annotations of the
document matching the visibility `$or`, sorted `{ createdAt: -1 }`
(newest first; `mergeSort` is stable like Mongo's sort). -/
def listAnnotations (userId userRole : String) (documentId : Nat)
    (store : List Annotation) : List Annotation :=
  (store.filter (fun a =>
      a.documentId == documentId && annotationVisibleInList userId userRole a)).mergeSort
    (fun a b => b.createdAt ≤ a.createdAt)

set_option linter.unusedVariables false in
/-- `GET /api/annotations/single/:id`: 404 when `findOne` misses, then the
`isVisible` check (visibleTo contains the caller, or one of "A1", "D1",
"D2", "R1", or the caller is the creator), 403 when it fails; the source
reads the role header but never uses it on this route. -/
def getAnn (userId userRole : String) (annotationId : Nat)
    (store : List Annotation) : Except ApiError Annotation :=
  match findOneById store annotationId with
  | none => .error .NotFound
  | some ann =>
    let isVisible :=
      ann.visibleTo.contains userId ||
      ann.visibleTo.contains "A1" ||
      ann.visibleTo.contains "D1" ||
      ann.visibleTo.contains "D2" ||
      ann.visibleTo.contains "R1" ||
      ann.createdBy == userId
    if !isVisible then .error .PermissionDenied
    else .ok ann

/-- `PUT /api/annotations/:id`.  404 when `findOne` misses; 403 unless
`isOwner || isAdmin`; otherwise `$set`s
`{...annotation, content: content || annotation.content, visibleTo:
visibleTo || annotation.visibleTo, updatedAt: new Date()}`.  Returns the
collection after the call together with the outcome. -/
def editAnn (userId userRole : String) (annotationId : Nat)
    (content : Option String) (visibleTo : Option (List String)) (now : Nat)
    (store : List Annotation) : List Annotation × Except ApiError Annotation :=
  match findOneById store annotationId with
  | none => (store, .error .NotFound)
  | some ann =>
    let isOwner := ann.createdBy == userId
    let isAdmin := userRole == "admin"
    if !isOwner && !isAdmin then (store, .error .PermissionDenied)
    else
      let updated : Annotation :=
        { ann with
          content := jsOrStr content ann.content
          visibleTo := jsOrList visibleTo ann.visibleTo
          updatedAt := now }
      (updateOneById store annotationId updated, .ok updated)

/-- `DELETE /api/annotations/:id`.  404 when `findOne` misses; 403 unless
`isOwner || isAdmin`; otherwise `deleteOne`.  Returns the collection after
the call together with the outcome. -/
def deleteAnn (userId userRole : String) (annotationId : Nat)
    (store : List Annotation) : List Annotation × Except ApiError Unit :=
  match findOneById store annotationId with
  | none => (store, .error .NotFound)
  | some ann =>
    let isOwner := ann.createdBy == userId
    let isAdmin := userRole == "admin"
    if !isOwner && !isAdmin then (store, .error .PermissionDenied)
    else (deleteOneById store annotationId, .ok ())

/-- The annotation of the §8.3 scenario: created by "D1" with
`visibleTo = ["D1"]`, on document 7. -/
def scenarioAnn : Annotation :=
  { id := 1
    documentId := 7
    createdBy := "D1"
    type := "comment"
    content := "hello"
    position := "p"
    visibleTo := ["D1"]
    createdAt := 0
    updatedAt := 0 }

/-- Did the route succeed (HTTP 200 rather than 403/404)? -/
def routeOk {α : Type} : Except ApiError α → Bool
  | .ok _ => true
  | .error _ => false

/-- Membership in a `GET /api/annotations/:documentId` response: the
annotation is in the collection, belongs to the document, and passes the
visibility `$or`. -/
theorem mem_listAnnotations {userId userRole : String} {documentId : Nat}
    {store : List Annotation} {a : Annotation} :
    a ∈ listAnnotations userId userRole documentId store ↔
      a ∈ store ∧ a.documentId = documentId ∧
        annotationVisibleInList userId userRole a = true := by
  simp [listAnnotations, List.mem_filter, and_assoc]

/-- C1 counterexample: the §8.3 annotation (created by "D1",
`visibleTo = ["D1"]`) IS returned by list() both to caller "D2" with role
default and to caller "A1" with role admin — `["D1"]` intersects the
`$in` token set {"A1","D1","D2","R1"}, so the OR-filter matches and the
result is not empty, contradicting the claim. -/
theorem C1_counterexample :
    scenarioAnn ∈ listAnnotations "D2" "default" 7 [scenarioAnn] ∧
      scenarioAnn ∈ listAnnotations "A1" "admin" 7 [scenarioAnn] := by
  constructor <;>
    exact mem_listAnnotations.mpr ⟨List.mem_singleton_self _, rfl, by decide⟩

/-- C1 (amended): an annotation whose `visibleTo` intersects the token set
{"A1","D1","D2","R1"} is returned by list() for its document to every
caller whose role is not readonly, whoever created it.  In particular the
annotation created by "D1" with `visibleTo = ["D1"]` IS returned both to
"D2" (role default) and to "A1" (role admin). -/
theorem C1_token_visible (userId userRole : String) (store : List Annotation)
    (a : Annotation) (t : String)
    (hrole : userRole ≠ "readonly") (hmem : a ∈ store) (ht : t ∈ a.visibleTo)
    (htok : t ∈ ["A1", "D1", "D2", "R1"]) :
    a ∈ listAnnotations userId userRole a.documentId store := by
  rw [mem_listAnnotations]
  refine ⟨hmem, rfl, ?_⟩
  simp only [annotationVisibleInList, beq_iff_eq, if_neg hrole]
  refine Bool.or_eq_true_iff.mpr (Or.inr ?_)
  refine List.any_eq_true.mpr ⟨t, ht, ?_⟩
  simpa using htok

/-- C1 witness: the amended statement at the §8.3 scenario — the "D1"
annotation with `visibleTo = ["D1"]` is in the list returned to caller
"D2" with role default. -/
theorem C1_token_visible_witness :
    scenarioAnn ∈
      listAnnotations "D2" "default" scenarioAnn.documentId [scenarioAnn] :=
  C1_token_visible "D2" "default" [scenarioAnn] scenarioAnn "D1"
    (by decide) (by decide) (by decide) (by decide)

/-- C2: a readonly caller's list() returns exactly the annotations of the
document whose `visibleTo` contains the caller id literally — creatorship
and the {"A1","D1","D2","R1"} token fallback play no part. -/
theorem C2_readonly_list (userId : String) (documentId : Nat)
    (store : List Annotation) (a : Annotation) :
    a ∈ listAnnotations userId "readonly" documentId store ↔
      a ∈ store ∧ a.documentId = documentId ∧ userId ∈ a.visibleTo := by
  rw [mem_listAnnotations]
  simp [annotationVisibleInList]

/-- C3: edit and delete both fail with NotFound when no annotation has the
given id; when one exists they both succeed exactly when the caller's role
is admin or the caller is the creator, and both fail with PermissionDenied
otherwise. -/
theorem C3_mutate_gating (userId userRole : String) (annotationId : Nat)
    (content : Option String) (visibleTo : Option (List String)) (now : Nat)
    (store : List Annotation) :
    match findOneById store annotationId with
    | none =>
        (editAnn userId userRole annotationId content visibleTo now store).2
            = .error .NotFound ∧
          (deleteAnn userId userRole annotationId store).2 = .error .NotFound
    | some a =>
        if userRole = "admin" ∨ userId = a.createdBy then
          routeOk (editAnn userId userRole annotationId content visibleTo now store).2
              = true ∧
            routeOk (deleteAnn userId userRole annotationId store).2 = true
        else
          (editAnn userId userRole annotationId content visibleTo now store).2
              = .error .PermissionDenied ∧
            (deleteAnn userId userRole annotationId store).2
              = .error .PermissionDenied := by
  cases hf : findOneById store annotationId with
  | none => simp [editAnn, deleteAnn, hf]
  | some a =>
    dsimp only
    by_cases hp : userRole = "admin" ∨ userId = a.createdBy
    · rw [if_pos hp]
      have hcond : (!(a.createdBy == userId) && !(userRole == "admin")) = false := by
        rcases hp with h | h <;> simp [h]
      simp [editAnn, deleteAnn, hf, hcond, routeOk]
    · rw [if_neg hp]
      push_neg at hp
      have hcond : (!(a.createdBy == userId) && !(userRole == "admin")) = true := by
        simp [hp.1, Ne.symm hp.2]
      simp [editAnn, deleteAnn, hf, hcond]

/-- C4: create always fails with PermissionDenied for a readonly caller,
whatever the payload; and it succeeds exactly when the caller's role is
admin or default (the `checkPermission(userRole, ["admin", "default"])`
gate is its only failure). -/
theorem C4_create_role_gate (userId userRole : String) (documentId : Nat)
    (type content position : String) (visibleTo : Option (List String))
    (now newId : Nat) (store : List Annotation) :
    (createAnn userId "readonly" documentId type content position
          visibleTo now newId store).2 = .error .PermissionDenied ∧
      (routeOk (createAnn userId userRole documentId type content position
            visibleTo now newId store).2 = true ↔
        userRole = "admin" ∨ userRole = "default") := by
  constructor
  · rfl
  · unfold createAnn checkPermission
    by_cases h : userRole = "admin" ∨ userRole = "default"
    · have : (["admin", "default"].contains userRole) = true := by
        rcases h with h | h <;> simp [h, List.contains]
      simp [this, routeOk, h]
    · push_neg at h
      have : (["admin", "default"].contains userRole) = false := by
        simp [List.contains, h.1, h.2]
      simp [this, routeOk, h.1, h.2]

/-- Any annotation a successful create returns carries
`visibleTo = visibleTo || ["A1", "D1", "D2"]`. -/
theorem create_ok_visibleTo (userId userRole : String) (documentId : Nat)
    (type content position : String) (visibleTo : Option (List String))
    (now newId : Nat) (store : List Annotation) (a : Annotation)
    (h : (createAnn userId userRole documentId type content position
        visibleTo now newId store).2 = .ok a) :
    a.visibleTo = jsOrList visibleTo ["A1", "D1", "D2"] := by
  unfold createAnn at h
  by_cases hg : (!checkPermission userRole ["admin", "default"]) = true
  · rw [if_pos hg] at h
    exact absurd h (by simp)
  · rw [if_neg hg] at h
    cases h; rfl

/-- C5: a created annotation's `visibleTo` is exactly `["A1","D1","D2"]`
when the request omits the field, and is exactly the supplied list when
the request carries one (the supplied list fully replaces the default). -/
theorem C5_visibleTo_replacement (userId userRole : String) (documentId : Nat)
    (type content position : String) (visibleTo : Option (List String))
    (now newId : Nat) (store : List Annotation) (a : Annotation)
    (h : (createAnn userId userRole documentId type content position
        visibleTo now newId store).2 = .ok a) :
    (visibleTo = none → a.visibleTo = ["A1", "D1", "D2"]) ∧
      ∀ l, visibleTo = some l → a.visibleTo = l := by
  have ha := create_ok_visibleTo userId userRole documentId type content
    position visibleTo now newId store a h
  constructor
  · intro hv; rw [ha, hv]; rfl
  · intro l hv; rw [ha, hv]; rfl

/-- The annotation produced by the C5 witness call (`visibleTo` omitted,
so the default applies). -/
def annC5 : Annotation :=
  ⟨1, 7, "D1", "comment", "c", "p", ["A1", "D1", "D2"], 0, 0⟩

/-- C5 witness: creating without `visibleTo` as "D1" (role default) stores
`visibleTo = ["A1","D1","D2"]`. -/
theorem C5_witness : annC5.visibleTo = ["A1", "D1", "D2"] :=
  (C5_visibleTo_replacement "D1" "default" 7 "comment" "c" "p" none 0 1 []
      annC5 rfl).1 rfl

/-- The annotation produced by the C6 counterexample call (`visibleTo`
supplied as the empty list). -/
def annC6 : Annotation := ⟨1, 7, "D1", "comment", "c", "p", [], 0, 0⟩

/-- C6 counterexample: a create call that supplies `visibleTo = []`
succeeds and stores an empty `visibleTo` — in JavaScript the empty array
is truthy, so `visibleTo || ["A1","D1","D2"]` keeps it, refuting the
"never empty on creation" invariant. -/
theorem C6_counterexample :
    (createAnn "D1" "default" 7 "comment" "c" "p" (some []) 0 1 []).2
        = .ok annC6 ∧
      annC6.visibleTo = [] :=
  ⟨rfl, rfl⟩

/-- C6 (amended): the stored `visibleTo` of a successfully created
annotation is non-empty whenever the request omits the field or supplies a
non-empty list; a request that supplies the empty list, however, is stored
as-is, with empty `visibleTo`. -/
theorem C6_visibleTo_nonempty (userId userRole : String) (documentId : Nat)
    (type content position : String) (visibleTo : Option (List String))
    (now newId : Nat) (store : List Annotation) (a : Annotation)
    (h : (createAnn userId userRole documentId type content position
        visibleTo now newId store).2 = .ok a)
    (hv : visibleTo = none ∨ ∃ l, visibleTo = some l ∧ l ≠ []) :
    a.visibleTo ≠ [] := by
  have hc := create_ok_visibleTo userId userRole documentId type content
    position visibleTo now newId store a h
  rcases hv with hv | ⟨l, hv, hl⟩
  · rw [hc, hv]; simp [jsOrList]
  · rw [hc, hv]; exact hl

/-- C6 witness: the amended statement at a concrete call omitting
`visibleTo` — the stored list is non-empty. -/
theorem C6_witness : annC5.visibleTo ≠ [] :=
  C6_visibleTo_nonempty "D1" "default" 7 "comment" "c" "p" none 0 1 [] annC5
    rfl (Or.inl rfl)

/-- The annotation a successful edit returns (and `$set`s) is the found
one with `content || old`, `visibleTo || old` and the fresh `updatedAt`. -/
theorem edit_ok_eq (userId userRole : String) (annotationId : Nat)
    (c : Option String) (v : Option (List String)) (now : Nat)
    (store : List Annotation) (a updated : Annotation)
    (hfind : findOneById store annotationId = some a)
    (h : (editAnn userId userRole annotationId c v now store).2 = .ok updated) :
    updated = { a with content := jsOrStr c a.content
                       visibleTo := jsOrList v a.visibleTo
                       updatedAt := now } := by
  unfold editAnn at h
  rw [hfind] at h
  dsimp only at h
  by_cases hcond : (!(a.createdBy == userId) && !(userRole == "admin")) = true
  · simp [hcond] at h
  · simp only [Bool.not_eq_true] at hcond
    simp [hcond] at h
    exact h.symm

/-- A successful delete leaves exactly the collection with the first
id-match removed. -/
theorem delete_ok_store (userId userRole : String) (annotationId : Nat)
    (store store2 : List Annotation)
    (h : deleteAnn userId userRole annotationId store = (store2, .ok ())) :
    store2 = deleteOneById store annotationId := by
  unfold deleteAnn at h
  cases hf : findOneById store annotationId with
  | none => rw [hf] at h; simp at h
  | some a =>
    rw [hf] at h
    dsimp only at h
    by_cases hcond : (!(a.createdBy == userId) && !(userRole == "admin")) = true
    · simp [hcond] at h
    · simp only [Bool.not_eq_true] at hcond
      simp [hcond] at h
      exact h.symm

/-- C7: an authorized edit that supplies only `content` keeps `visibleTo`,
`type`, `position`, `createdBy`, `documentId` and `createdAt` of the
annotation unchanged, and stamps the strictly later current time into
`updatedAt` (time is a parameter here; `new Date()` at the edit is assumed
later than the stored `updatedAt`). -/
theorem C7_edit_content_frame (userId userRole : String) (annotationId : Nat)
    (c : String) (now : Nat) (store : List Annotation) (a updated : Annotation)
    (hfind : findOneById store annotationId = some a)
    (h : (editAnn userId userRole annotationId (some c) none now store).2
        = .ok updated)
    (hnow : a.updatedAt < now) :
    updated.visibleTo = a.visibleTo ∧ updated.type = a.type ∧
      updated.position = a.position ∧ updated.createdBy = a.createdBy ∧
      updated.documentId = a.documentId ∧ updated.createdAt = a.createdAt ∧
      a.updatedAt < updated.updatedAt := by
  have he := edit_ok_eq userId userRole annotationId (some c) none now store a
    updated hfind h
  subst he
  exact ⟨rfl, rfl, rfl, rfl, rfl, rfl, hnow⟩

/-- The annotation of the C7 witness edit, before the edit. -/
def annC7 : Annotation := ⟨1, 7, "D1", "comment", "old", "p", ["D1"], 0, 0⟩

/-- The annotation of the C7 witness edit, after the edit at time 5. -/
def annC7u : Annotation := ⟨1, 7, "D1", "comment", "new", "p", ["D1"], 0, 5⟩

/-- C7 witness: the owner "D1" editing only the content at time 5. -/
theorem C7_witness :
    annC7u.visibleTo = annC7.visibleTo ∧ annC7u.type = annC7.type ∧
      annC7u.position = annC7.position ∧ annC7u.createdBy = annC7.createdBy ∧
      annC7u.documentId = annC7.documentId ∧ annC7u.createdAt = annC7.createdAt ∧
      annC7.updatedAt < annC7u.updatedAt :=
  C7_edit_content_frame "D1" "default" 1 "new" 5 [annC7] annC7 annC7u rfl
    (by simp [editAnn, findOneById, annC7, annC7u, jsOrStr, jsOrList])
    (by decide)

/-- The annotation of the C8 counterexample edit, before the edit. -/
def annC8 : Annotation := ⟨1, 7, "D1", "comment", "old", "p", ["A1"], 0, 0⟩

/-- What the C8 counterexample edit (visibleTo supplied as `[]`) stores. -/
def annC8e : Annotation := ⟨1, 7, "D1", "comment", "old", "p", [], 0, 5⟩

/-- C8 counterexample: an authorized edit that supplies the empty
`visibleTo` list — an empty supplied value — does NOT keep the prior
value: the empty JavaScript array is truthy, so
`visibleTo || annotation.visibleTo` stores `[]` over the prior `["A1"]`. -/
theorem C8_counterexample :
    (editAnn "D1" "default" 1 none (some []) 5 [annC8]).2 = .ok annC8e ∧
      annC8.visibleTo = ["A1"] ∧ annC8e.visibleTo = [] := by
  refine ⟨?_, rfl, rfl⟩
  simp [editAnn, findOneById, annC8, annC8e, jsOrStr, jsOrList]

/-- C8 (amended): in an authorized edit a falsy supplied value — an absent
field or empty-string content — is treated as not supplied and the prior
value is kept, so content can never be cleared to the empty string; a
supplied `visibleTo` list, however, always replaces the prior list, even
when it is the empty list. -/
theorem C8_falsy_fallback (userId userRole : String) (annotationId : Nat)
    (c : Option String) (v : Option (List String)) (now : Nat)
    (store : List Annotation) (a updated : Annotation)
    (hfind : findOneById store annotationId = some a)
    (h : (editAnn userId userRole annotationId c v now store).2 = .ok updated) :
    ((c = none ∨ c = some "") → updated.content = a.content) ∧
      (v = none → updated.visibleTo = a.visibleTo) ∧
      (∀ l, v = some l → updated.visibleTo = l) ∧
      (a.content ≠ "" → updated.content ≠ "") := by
  have he := edit_ok_eq userId userRole annotationId c v now store a updated
    hfind h
  subst he
  refine ⟨?_, ?_, ?_, ?_⟩
  · rintro (rfl | rfl) <;> simp [jsOrStr]
  · rintro rfl; rfl
  · rintro l rfl; rfl
  · intro hne
    show jsOrStr c a.content ≠ ""
    cases c with
    | none => exact hne
    | some s =>
      by_cases hs : s = ""
      · simp only [jsOrStr, hs, if_pos rfl]
        exact hne
      · simp only [jsOrStr, if_neg hs]
        exact hs

/-- What the C8 witness edit (content supplied as `""`, visibleTo absent)
stores: the prior content survives. -/
def annC8w : Annotation := ⟨1, 7, "D1", "comment", "old", "p", ["A1"], 0, 5⟩

/-- C8 witness: the amended statement at an authorized edit supplying
`content = ""` — the prior content is kept and stays non-empty. -/
theorem C8_witness : annC8w.content = annC8.content ∧ annC8w.content ≠ "" := by
  have hthm := C8_falsy_fallback "D1" "default" 1 (some "") none 5 [annC8]
    annC8 annC8w rfl
    (by simp [editAnn, findOneById, annC8, annC8w, jsOrStr, jsOrList])
  exact ⟨hthm.1 (Or.inr rfl), hthm.2.2.2 (by decide)⟩

/-- When the collection has no duplicate ids (Mongo's `_id` index), no
annotation left by `deleteOne` carries the deleted id. -/
theorem mem_deleteOneById_ne (annotationId : Nat) :
    ∀ store : List Annotation, (store.map (fun a => a.id)).Nodup →
      ∀ b ∈ deleteOneById store annotationId, b.id ≠ annotationId := by
  intro store
  induction store with
  | nil => intro _ b hb; simp [deleteOneById] at hb
  | cons a rest ih =>
    intro hnodup b hb
    rw [List.map_cons, List.nodup_cons] at hnodup
    by_cases ha : (a.id == annotationId) = true
    · rw [show deleteOneById (a :: rest) annotationId
          = if a.id == annotationId then rest
            else a :: deleteOneById rest annotationId from rfl, if_pos ha] at hb
      intro hbid
      apply hnodup.1
      rw [beq_iff_eq] at ha
      rw [ha, ← hbid]
      exact List.mem_map.mpr ⟨b, hb, rfl⟩
    · rw [show deleteOneById (a :: rest) annotationId
          = if a.id == annotationId then rest
            else a :: deleteOneById rest annotationId from rfl, if_neg ha] at hb
      rcases List.mem_cons.mp hb with rfl | hb
      · simp at ha
        exact ha
      · exact ih hnodup.2 b hb

/-- C9: once a delete on an id succeeds (the collection having no
duplicate ids, per Mongo's `_id` index), getOne on that id answers
NotFound and the id appears in no caller's list() for any document. -/
theorem C9_delete_removes (userId userRole userId2 userRole2 : String)
    (annotationId : Nat) (store store2 : List Annotation)
    (hnodup : (store.map (fun a => a.id)).Nodup)
    (h : deleteAnn userId userRole annotationId store = (store2, .ok ())) :
    getAnn userId2 userRole2 annotationId store2 = .error .NotFound ∧
      ∀ documentId b, b ∈ listAnnotations userId2 userRole2 documentId store2 →
        b.id ≠ annotationId := by
  have hs : store2 = deleteOneById store annotationId :=
    delete_ok_store userId userRole annotationId store store2 h
  subst hs
  have hne := mem_deleteOneById_ne annotationId store hnodup
  constructor
  · unfold getAnn findOneById
    rw [List.find?_eq_none.mpr (fun b hb => by
      simp only [beq_iff_eq]
      exact hne b hb)]
  · intro documentId b hb
    exact hne b (mem_listAnnotations.mp hb).1

/-- The annotation the C9 witness deletes. -/
def annC9 : Annotation := ⟨1, 7, "D1", "comment", "c", "p", ["A1"], 0, 0⟩

/-- C9 witness: after the owner deletes the only annotation, getOne by any
caller answers NotFound. -/
theorem C9_witness : getAnn "D2" "default" 1 [] = .error .NotFound :=
  (C9_delete_removes "D1" "default" "D2" "default" 1 [annC9] [] (by simp)
    (by simp [deleteAnn, findOneById, deleteOneById, annC9])).1

/-- C10: an edit or delete call whose outcome is an error (NotFound or
PermissionDenied) returns before any mutation: the collection after the
call is the collection before it. -/
theorem C10_failed_mutation_frame (userId userRole : String)
    (annotationId : Nat) (c : Option String) (v : Option (List String))
    (now : Nat) (store : List Annotation) :
    (∀ e, (editAnn userId userRole annotationId c v now store).2 = .error e →
        (editAnn userId userRole annotationId c v now store).1 = store) ∧
      ∀ e, (deleteAnn userId userRole annotationId store).2 = .error e →
        (deleteAnn userId userRole annotationId store).1 = store := by
  constructor
  all_goals
    intro e he
    cases hf : findOneById store annotationId with
    | none => simp [editAnn, deleteAnn, hf]
    | some a =>
      by_cases hcond : (!(a.createdBy == userId) && !(userRole == "admin")) = true
      · simp [editAnn, deleteAnn, hf, hcond]
      · simp only [Bool.not_eq_true] at hcond
        simp [editAnn, deleteAnn, hf, hcond] at he

/-- The annotation of the C10 witness calls: created by "D1", targeted by
the unauthorized caller "D2". -/
def annC10 : Annotation := ⟨1, 7, "D1", "comment", "c", "p", ["A1"], 0, 0⟩

/-- C10 witness: a PermissionDenied edit and delete by "D2" on the "D1"
annotation leave the collection unchanged. -/
theorem C10_witness :
    (editAnn "D2" "default" 1 none none 5 [annC10]).1 = [annC10] ∧
      (deleteAnn "D2" "default" 1 [annC10]).1 = [annC10] :=
  ⟨(C10_failed_mutation_frame "D2" "default" 1 none none 5 [annC10]).1
      .PermissionDenied
      (by simp [editAnn, findOneById, annC10]),
    (C10_failed_mutation_frame "D2" "default" 1 none none 5 [annC10]).2
      .PermissionDenied
      (by simp [deleteAnn, findOneById, annC10])⟩
